import Mathlib

/-!
Verification of the host-string bridge of PyOxidizer
(src/pyoxidizer/src/pyembed/pystr.rs).

The bridge converts OS-native strings into the representations an embedded
Python runtime needs, across an FFI boundary:

* `OwnedPyStr` — an owning wrapper over a wide-character buffer allocated by
  the runtime's `Py_DecodeLocale`, freed via `PyMem_RawFree`;
* `osstring_to_str` — unix: NUL-terminated copy + `PyUnicode_DecodeLocaleAndSize`
  with the `surrogateescape` error handler; windows: `PyUnicode_FromWideChar`
  on the raw 16-bit code units with an explicit length;
* `osstring_to_bytes` — unix: `PyBytes_FromStringAndSize` on the raw bytes;
  windows: the same on the 16-bit code units reinterpreted as raw byte pairs.

Host strings are modelled as `List Nat` (bytes on the unix paths, 16-bit code
units on the windows paths).  Pointers are `Nat`, with `0` playing the role of
the null pointer.  The ambient runtime (its locale-decode subsystem, its raw
allocator, and the trace of FFI calls made into it) is explicit state threaded
through every operation.  Rust panics (`expect`, `panic!`) are modelled as
`Except.error` results.
-/

namespace PyStr

/-- The two fatal error kinds of the bridge: `invalidHostString` for an input
with an embedded NUL byte (the `expect` calls on `CString::new`), and
`runtimeDecodeFailure` for a null result from the runtime's decode primitive
(the explicit `panic!` in `OwnedPyStr::from`). -/
inductive PyStrError where
  | invalidHostString
  | runtimeDecodeFailure
deriving DecidableEq, Repr

/-- The foreign (runtime-facing) primitives the bridge can call, recorded in a
trace so that theorems can speak about which foreign calls an operation makes. -/
inductive FFICall where
  | decodeLocale
  | decodeLocaleAndSize
  | fromWideChar
  | bytesFromStringAndSize
  | rawFree
deriving DecidableEq, Repr

/-- A runtime object handed back across the FFI boundary: either the null
pointer (a failed constructor), a text object holding code points, or a bytes
object holding raw bytes. -/
inductive PyObject where
  | null
  | text (units : List Nat)
  | bytes (data : List Nat)
deriving DecidableEq, Repr

/-- The ambient state of the embedded runtime: whether its locale-decode
subsystem is functional (`decodeOk`), a fresh-pointer supply and the set of
live raw buffers it has allocated, counters of raw allocations and
deallocations, and the trace of FFI calls made into it (most recent first). -/
structure Runtime where
  decodeOk : Bool
  nextPtr : Nat
  live : List Nat
  allocCount : Nat
  freeCount : Nat
  trace : List FFICall
deriving DecidableEq, Repr

/-- Modelled from the spec (boundary B): the runtime's locale-decode primitive
`Py_DecodeLocale`, which takes a NUL-terminated buffer and either allocates a
fresh wide-character buffer (returning its non-null pointer) or fails,
returning null, when the locale subsystem is not functional. -/
def pyDecodeLocale (rt : Runtime) (_buf : List Nat) : Nat × Runtime :=
  if rt.decodeOk then
    let p := rt.nextPtr + 1
    (p, { rt with nextPtr := p, live := p :: rt.live,
                  allocCount := rt.allocCount + 1,
                  trace := FFICall.decodeLocale :: rt.trace })
  else
    (0, { rt with trace := FFICall.decodeLocale :: rt.trace })

/-- Modelled from the spec (boundary B): the runtime's dedicated raw-memory
deallocator `PyMem_RawFree`, which releases a buffer previously allocated by
the runtime. -/
def pyMemRawFree (rt : Runtime) (p : Nat) : Runtime :=
  { rt with live := rt.live.erase p,
            freeCount := rt.freeCount + 1,
            trace := FFICall.rawFree :: rt.trace }

/-- Modelled from the spec: surrogate-escape decoding of one byte under the
ASCII-compatible C locale — a decodable byte (< 0x80) maps to itself, an
undecodable byte is mapped into the reserved low-surrogate range
`0xDC80 ..= 0xDCFF` instead of being substituted or dropped. -/
def decodeByteSE (c : Nat) : Nat :=
  if c < 0x80 then c else 0xDC00 + c

/-- Modelled from the spec: surrogate-escape decoding of a byte sequence under
the ASCII-compatible C locale (the codec behind the runtime's length-aware
locale decode with the `surrogateescape` error handler). -/
def decodeLocaleSE (b : List Nat) : List Nat :=
  b.map decodeByteSE

/-- Modelled from the spec: the reverse of `decodeByteSE` — code points below
0x80 encode as themselves, escaped bytes in `0xDC80 ..= 0xDCFF` map back to the
original byte, anything else is unencodable. -/
def encodeCharSE (u : Nat) : Option Nat :=
  if u < 0x80 then some u
  else if 0xDC80 ≤ u ∧ u ≤ 0xDCFF then some (u - 0xDC00)
  else none

/-- Modelled from the spec: reversing the surrogate-escape conversion on a
whole code-point sequence. -/
def encodeLocaleSE : List Nat → Option (List Nat)
  | [] => some []
  | u :: t =>
    match encodeCharSE u, encodeLocaleSE t with
    | some c, some cs => some (c :: cs)
    | _, _ => none

/-- Modelled from the spec (boundary B): the runtime's length-aware
locale-decode-to-text primitive `PyUnicode_DecodeLocaleAndSize` with the
`surrogateescape` error handler: it reads `len` bytes of `buf`, and returns a
new text object, or the null pointer when the locale subsystem is not
functional. -/
def pyUnicodeDecodeLocaleAndSize (rt : Runtime) (buf : List Nat) (len : Nat) :
    PyObject × Runtime :=
  if rt.decodeOk then
    (PyObject.text (decodeLocaleSE (buf.take len)),
     { rt with trace := FFICall.decodeLocaleAndSize :: rt.trace })
  else
    (PyObject.null, { rt with trace := FFICall.decodeLocaleAndSize :: rt.trace })

/-- Modelled from the spec (boundary B): the runtime's explicit-length
wide-character constructor `PyUnicode_FromWideChar` — no decoding or
validation, it takes `len` code units of `buf` verbatim. -/
def pyUnicodeFromWideChar (rt : Runtime) (buf : List Nat) (len : Nat) :
    PyObject × Runtime :=
  (PyObject.text (buf.take len),
   { rt with trace := FFICall.fromWideChar :: rt.trace })

/-- Modelled from the spec (boundary B): the runtime's length-aware bytes
constructor `PyBytes_FromStringAndSize` — copies `len` raw bytes of `buf`
verbatim into a new bytes object. -/
def pyBytesFromStringAndSize (rt : Runtime) (buf : List Nat) (len : Nat) :
    PyObject × Runtime :=
  (PyObject.bytes (buf.take len),
   { rt with trace := FFICall.bytesFromStringAndSize :: rt.trace })

/-- Modelled from the rust-cpython dependency: `PyObject::from_owned_ptr`
wraps the pointer it is given without a null check (it carries only a debug
assertion, stripped in release builds). -/
def pyObjectFromOwnedPtr (o : PyObject) : PyObject :=
  o

/-- Reading a text object back as its 16-bit code units
(`PyUnicode_AsWideChar`): the reverse of `pyUnicodeFromWideChar`. -/
def pyUnicodeAsWideChar : PyObject → Option (List Nat)
  | PyObject.text u => some u
  | _ => none

/-- `CString::new`: succeeds with a NUL-terminated copy exactly when the input
has no embedded NUL byte, fails otherwise. -/
def cStringNew (s : List Nat) : Option (List Nat) :=
  if s.contains 0 then none else some (s ++ [0])

/-- The owning wrapper over a runtime-allocated wide-character buffer
(struct `OwnedPyStr` of pystr.rs); `data` is the raw pointer. -/
structure OwnedPyStr where
  data : Nat
deriving DecidableEq, Repr

/-- `OwnedPyStr::as_wchar_ptr`: expose the borrowed raw pointer. -/
def OwnedPyStr.as_wchar_ptr (h : OwnedPyStr) : Nat :=
  h.data

/-- `Drop for OwnedPyStr`: release the buffer through `PyMem_RawFree`. -/
def OwnedPyStr.drop (h : OwnedPyStr) (rt : Runtime) : Runtime :=
  pyMemRawFree rt h.data

/-- `impl From<&str> for OwnedPyStr`: build a NUL-terminated copy (the
`expect` panics, modelled as `invalidHostString`, when the input has an
embedded NUL), call `Py_DecodeLocale`, `panic!` (modelled as
`runtimeDecodeFailure`) when it returns null, else own the resulting
pointer. -/
def OwnedPyStr.fromStr (rt : Runtime) (s : List Nat) :
    Except PyStrError OwnedPyStr × Runtime :=
  match cStringNew s with
  | none => (Except.error PyStrError.invalidHostString, rt)
  | some cs =>
    let r := pyDecodeLocale rt cs
    if r.1 = 0 then (Except.error PyStrError.runtimeDecodeFailure, r.2)
    else (Except.ok ⟨r.1⟩, r.2)

/-- `osstring_to_str` (unix): NUL-terminated copy of the bytes (the `expect`
panics, modelled as `invalidHostString`, on an embedded NUL), then
`PyUnicode_DecodeLocaleAndSize` on the bytes without the terminator with the
`surrogateescape` handler; the result — null or not — is wrapped by
`PyObject::from_owned_ptr` with no check. -/
def osstring_to_str_unix (rt : Runtime) (s : List Nat) :
    Except PyStrError PyObject × Runtime :=
  match cStringNew s with
  | none => (Except.error PyStrError.invalidHostString, rt)
  | some b =>
    let r := pyUnicodeDecodeLocaleAndSize rt b (b.length - 1)
    (Except.ok (pyObjectFromOwnedPtr r.1), r.2)

/-- `osstring_to_str` (windows): collect the 16-bit code units and call
`PyUnicode_FromWideChar` with their exact count; no decoding, no validation,
no NUL scan. -/
def osstring_to_str_windows (rt : Runtime) (w : List Nat) :
    PyObject × Runtime :=
  let r := pyUnicodeFromWideChar rt w w.length
  (pyObjectFromOwnedPtr r.1, r.2)

/-- `osstring_to_bytes` (unix): `PyBytes_FromStringAndSize` on the raw bytes
with their exact length. -/
def osstring_to_bytes_unix (rt : Runtime) (s : List Nat) :
    PyObject × Runtime :=
  let r := pyBytesFromStringAndSize rt s s.length
  (pyObjectFromOwnedPtr r.1, r.2)

/-- One 16-bit code unit reinterpreted as its two raw bytes (little-endian
layout of a `u16` in the `Vec<u16>` buffer). -/
def u16le (u : Nat) : List Nat :=
  [u % 256, u / 256 % 256]

/-- A 16-bit code-unit sequence reinterpreted as raw byte pairs — the byte
image of the `Vec<u16>` buffer that `osstring_to_bytes` (windows) passes as a
`*const i8`. -/
def wideToBytes (w : List Nat) : List Nat :=
  w.flatMap u16le

/-- `osstring_to_bytes` (windows): `PyBytes_FromStringAndSize` on the code
units reinterpreted as raw bytes, with length twice the code-unit count. -/
def osstring_to_bytes_windows (rt : Runtime) (w : List Nat) :
    PyObject × Runtime :=
  let r := pyBytesFromStringAndSize rt (wideToBytes w) (w.length * 2)
  (pyObjectFromOwnedPtr r.1, r.2)

/-- The two states of a Native String Handle's lifecycle. -/
inductive HandleState where
  | alive
  | freed
deriving DecidableEq, Repr

/-- The handle's only lifecycle transition: destruction, Alive → Freed. -/
inductive handleStep : HandleState → HandleState → Prop
  | drop : handleStep HandleState.alive HandleState.freed

/-- Construct one handle and immediately destroy it (the handle's whole
lifecycle, as driven by Rust's ownership: `Drop` runs exactly once when the
owner goes out of scope). -/
def constructAndDrop (rt : Runtime) (s : List Nat) : Runtime :=
  match OwnedPyStr.fromStr rt s with
  | (Except.ok h, rt') => h.drop rt'
  | (Except.error _, rt') => rt'

/-- Construct and destroy `n` handles in sequence. -/
def constructDestroyN (s : List Nat) : Nat → Runtime → Runtime
  | 0, rt => rt
  | n + 1, rt => constructDestroyN s n (constructAndDrop rt s)

/-- A concrete functional runtime (locale subsystem initialized, nothing
allocated yet). -/
def rtGood : Runtime :=
  { decodeOk := true, nextPtr := 0, live := [], allocCount := 0,
    freeCount := 0, trace := [] }

/-- A concrete broken runtime: its locale-decode subsystem fails, so every
decode primitive returns null. -/
def rtBad : Runtime :=
  { decodeOk := false, nextPtr := 0, live := [], allocCount := 0,
    freeCount := 0, trace := [] }

/-- Surrogate-escape decoding of a single byte below 256 is reversed exactly
by `encodeCharSE`. -/
theorem encodeCharSE_decodeByteSE (c : Nat) (hc : c < 256) :
    encodeCharSE (decodeByteSE c) = some c := by
  by_cases h : c < 0x80
  · simp [decodeByteSE, encodeCharSE, h]
  · have h1 : ¬ (0xDC00 + c < 0x80) := by omega
    have h2 : 0xDC80 ≤ 0xDC00 + c ∧ 0xDC00 + c ≤ 0xDCFF := by omega
    simp [decodeByteSE, encodeCharSE, h, h1, h2]

/-- Surrogate-escape decoding of a byte sequence is reversed exactly by
`encodeLocaleSE`: no byte is dropped or replaced. -/
theorem encodeLocaleSE_decodeLocaleSE :
    ∀ b : List Nat, (∀ c ∈ b, c < 256) →
      encodeLocaleSE (decodeLocaleSE b) = some b
  | [], _ => rfl
  | c :: t, hb => by
    have hc := encodeCharSE_decodeByteSE c (hb c (List.mem_cons_self c t))
    have ht := encodeLocaleSE_decodeLocaleSE t
      (fun x hx => hb x (List.mem_cons_of_mem c hx))
    simp [decodeLocaleSE] at ht ⊢
    simp [encodeLocaleSE, hc, ht]

/-- Reinterpreting 16-bit code units as raw byte pairs doubles the length. -/
theorem wideToBytes_length : ∀ w : List Nat, (wideToBytes w).length = 2 * w.length
  | [] => rfl
  | u :: t => by
    have ih := wideToBytes_length t
    simp [wideToBytes, u16le] at ih ⊢
    omega

/-- Handle construction on an input with an embedded NUL: fails fast, state
untouched. -/
theorem fromStr_of_nul (rt : Runtime) (s : List Nat) (h : 0 ∈ s) :
    OwnedPyStr.fromStr rt s = (Except.error PyStrError.invalidHostString, rt) := by
  simp [OwnedPyStr.fromStr, cStringNew, h]

/-- Handle construction on a NUL-free input with a functional locale-decode
subsystem: allocates one fresh buffer and owns its pointer. -/
theorem fromStr_of_ok (rt : Runtime) (s : List Nat) (h : ¬ 0 ∈ s)
    (hok : rt.decodeOk = true) :
    OwnedPyStr.fromStr rt s =
      (Except.ok ⟨rt.nextPtr + 1⟩,
       { rt with nextPtr := rt.nextPtr + 1,
                 live := (rt.nextPtr + 1) :: rt.live,
                 allocCount := rt.allocCount + 1,
                 trace := FFICall.decodeLocale :: rt.trace }) := by
  simp [OwnedPyStr.fromStr, cStringNew, h, pyDecodeLocale, hok]

/-- Handle construction when the locale-decode primitive returns null: fails
fatally, no allocation recorded. -/
theorem fromStr_of_decode_failure (rt : Runtime) (s : List Nat) (h : ¬ 0 ∈ s)
    (hbad : rt.decodeOk = false) :
    OwnedPyStr.fromStr rt s =
      (Except.error PyStrError.runtimeDecodeFailure,
       { rt with trace := FFICall.decodeLocale :: rt.trace }) := by
  simp [OwnedPyStr.fromStr, cStringNew, h, pyDecodeLocale, hbad]

/-- One construct-and-destroy cycle on a functional runtime and a NUL-free
input: one allocation, one matching raw free, live set restored. -/
theorem constructAndDrop_eq (rt : Runtime) (s : List Nat)
    (hok : rt.decodeOk = true) (h0 : s.contains 0 = false) :
    constructAndDrop rt s =
      { rt with nextPtr := rt.nextPtr + 1,
                allocCount := rt.allocCount + 1,
                freeCount := rt.freeCount + 1,
                trace := FFICall.rawFree :: FFICall.decodeLocale :: rt.trace } := by
  have h0' : ¬ (0 ∈ s) := by simpa using h0
  simp [constructAndDrop, OwnedPyStr.fromStr, cStringNew, h0', pyDecodeLocale,
        hok, OwnedPyStr.drop, pyMemRawFree, List.erase_cons_head]

/-- Construct-and-destroy cycles preserve the live-buffer set and advance the
allocation, deallocation and trace counters in lockstep. -/
theorem constructDestroyN_state (s : List Nat) (h0 : s.contains 0 = false) :
    ∀ (n : Nat) (rt : Runtime), rt.decodeOk = true →
      (constructDestroyN s n rt).allocCount = rt.allocCount + n
      ∧ (constructDestroyN s n rt).freeCount = rt.freeCount + n
      ∧ (constructDestroyN s n rt).live = rt.live
      ∧ (constructDestroyN s n rt).trace.count FFICall.rawFree
          = rt.trace.count FFICall.rawFree + n
      ∧ (constructDestroyN s n rt).trace.count FFICall.decodeLocale
          = rt.trace.count FFICall.decodeLocale + n
  | 0, rt, _ => by simp [constructDestroyN]
  | n + 1, rt, hok => by
    have hstep := constructAndDrop_eq rt s hok h0
    have hok' : (constructAndDrop rt s).decodeOk = true := by
      rw [hstep]; exact hok
    obtain ⟨h1, h2, h3, h4, h5⟩ :=
      constructDestroyN_state s h0 n (constructAndDrop rt s) hok'
    refine ⟨?_, ?_, ?_, ?_, ?_⟩
    · show (constructDestroyN s n (constructAndDrop rt s)).allocCount = _
      rw [h1, hstep]; dsimp only; omega
    · show (constructDestroyN s n (constructAndDrop rt s)).freeCount = _
      rw [h2, hstep]; dsimp only; omega
    · show (constructDestroyN s n (constructAndDrop rt s)).live = _
      rw [h3, hstep]
    · show (constructDestroyN s n (constructAndDrop rt s)).trace.count
          FFICall.rawFree = _
      rw [h4, hstep]; dsimp only; simp [List.count_cons]; omega
    · show (constructDestroyN s n (constructAndDrop rt s)).trace.count
          FFICall.decodeLocale = _
      rw [h5, hstep]; dsimp only; simp [List.count_cons]; omega

/-- C1: for every byte sequence without an embedded NUL, the POSIX-style
`osstring_to_str` decodes it with the surrogate-escape policy, and reversing
the conversion yields exactly the original bytes — including bytes invalid
under every standard encoding: nothing is dropped or substituted. -/
theorem osstring_to_str_unix_surrogateescape_roundtrip
    (rt : Runtime) (b : List Nat)
    (hb : ∀ c ∈ b, c < 256) (h0 : b.contains 0 = false)
    (hok : rt.decodeOk = true) :
    (osstring_to_str_unix rt b).1 = Except.ok (PyObject.text (decodeLocaleSE b))
    ∧ encodeLocaleSE (decodeLocaleSE b) = some b := by
  constructor
  · have h0' : ¬ (0 ∈ b) := by simpa using h0
    simp [osstring_to_str_unix, cStringNew, h0', pyUnicodeDecodeLocaleAndSize,
          hok, pyObjectFromOwnedPtr]
  · exact encodeLocaleSE_decodeLocaleSE b hb

/-- C1 witness: the UTF-8 bytes of "café" — with the lone continuation bytes
0xC3, 0xA9 invalid as ASCII — round-trip exactly through the surrogate-escape
conversion. -/
theorem osstring_to_str_unix_surrogateescape_roundtrip_cafe :
    (osstring_to_str_unix rtGood [99, 97, 102, 195, 169]).1
        = Except.ok (PyObject.text (decodeLocaleSE [99, 97, 102, 195, 169]))
    ∧ encodeLocaleSE (decodeLocaleSE [99, 97, 102, 195, 169])
        = some [99, 97, 102, 195, 169] :=
  osstring_to_str_unix_surrogateescape_roundtrip rtGood [99, 97, 102, 195, 169]
    (by decide) (by decide) (by decide)

/-- C2: `osstring_to_bytes` returns a bytes object byte-identical to the host
string's native representation — the raw bytes verbatim on the POSIX-style
path, the 16-bit code units reinterpreted as raw byte pairs (length twice the
code-unit count) on the Windows-style path — never a text-encoding
projection. -/
theorem osstring_to_bytes_native_representation (rt : Runtime) (b w : List Nat) :
    (osstring_to_bytes_unix rt b).1 = PyObject.bytes b
    ∧ (osstring_to_bytes_windows rt w).1 = PyObject.bytes (wideToBytes w)
    ∧ (wideToBytes w).length = 2 * w.length := by
  refine ⟨?_, ?_, wideToBytes_length w⟩
  · simp [osstring_to_bytes_unix, pyBytesFromStringAndSize, pyObjectFromOwnedPtr]
  · have h := wideToBytes_length w
    simp [osstring_to_bytes_windows, pyBytesFromStringAndSize, pyObjectFromOwnedPtr]
    omega

/-- C6: the Windows-style `osstring_to_str` performs no decoding or
validation: it hands all code units — terminator-valued (zero) units and
unpaired surrogates included — to the explicit-length wide-character
constructor with length equal to the code-unit count, and the resulting text
object reads back as exactly the input units. -/
theorem osstring_to_str_windows_roundtrip (rt : Runtime) (w : List Nat) :
    (osstring_to_str_windows rt w).1 = PyObject.text w
    ∧ pyUnicodeAsWideChar (osstring_to_str_windows rt w).1 = some w
    ∧ (osstring_to_str_windows rt w).2.trace = FFICall.fromWideChar :: rt.trace := by
  simp [osstring_to_str_windows, pyUnicodeFromWideChar, pyObjectFromOwnedPtr,
        pyUnicodeAsWideChar]

/-- C8: both bytes conversions and the Windows-style text conversion are
total: on every host string they produce a proper (non-null) object, and the
only foreign call each makes is its constructor — no decode primitive is ever
invoked on these paths, so neither InvalidHostString nor RuntimeDecodeFailure
can arise. -/
theorem bytes_and_windows_text_total (rt : Runtime) (b w : List Nat) :
    (osstring_to_bytes_unix rt b).1 = PyObject.bytes b
    ∧ (osstring_to_bytes_unix rt b).2.trace
        = FFICall.bytesFromStringAndSize :: rt.trace
    ∧ (osstring_to_bytes_windows rt w).1 = PyObject.bytes (wideToBytes w)
    ∧ (osstring_to_bytes_windows rt w).2.trace
        = FFICall.bytesFromStringAndSize :: rt.trace
    ∧ (osstring_to_str_windows rt w).1 = PyObject.text w
    ∧ (osstring_to_str_windows rt w).2.trace = FFICall.fromWideChar :: rt.trace := by
  have h := wideToBytes_length w
  refine ⟨?_, ?_, ?_, ?_, ?_, ?_⟩ <;>
    simp [osstring_to_bytes_unix, osstring_to_bytes_windows,
          osstring_to_str_windows, pyBytesFromStringAndSize,
          pyUnicodeFromWideChar, pyObjectFromOwnedPtr]
  omega

/-- C9: the empty host string is not an error on any path: both bytes
conversions return an empty bytes object and both text conversions return an
empty text object. -/
theorem empty_host_string_ok (rt : Runtime) (hok : rt.decodeOk = true) :
    (osstring_to_bytes_unix rt []).1 = PyObject.bytes []
    ∧ (osstring_to_bytes_windows rt []).1 = PyObject.bytes []
    ∧ (osstring_to_str_unix rt []).1 = Except.ok (PyObject.text [])
    ∧ (osstring_to_str_windows rt []).1 = PyObject.text [] := by
  refine ⟨?_, ?_, ?_, ?_⟩ <;>
    simp [osstring_to_bytes_unix, osstring_to_bytes_windows,
          osstring_to_str_unix, osstring_to_str_windows, cStringNew,
          pyBytesFromStringAndSize, pyUnicodeDecodeLocaleAndSize,
          pyUnicodeFromWideChar, pyObjectFromOwnedPtr, hok, wideToBytes,
          decodeLocaleSE]

/-- C9 witness: the empty host string on the concrete functional runtime. -/
theorem empty_host_string_ok_witness :
    (osstring_to_bytes_unix rtGood []).1 = PyObject.bytes []
    ∧ (osstring_to_bytes_windows rtGood []).1 = PyObject.bytes []
    ∧ (osstring_to_str_unix rtGood []).1 = Except.ok (PyObject.text [])
    ∧ (osstring_to_str_windows rtGood []).1 = PyObject.text [] :=
  empty_host_string_ok rtGood (by decide)

/-- C10: `osstring_to_bytes` is deterministic and independent of the ambient
runtime state on both paths — equal native representations give equal bytes
objects under any two runtimes — unlike the POSIX-style text conversion,
whose result does depend on the ambient locale-decode state. -/
theorem osstring_to_bytes_deterministic (r1 r2 : Runtime) (b w : List Nat) :
    (osstring_to_bytes_unix r1 b).1 = (osstring_to_bytes_unix r2 b).1
    ∧ (osstring_to_bytes_windows r1 w).1 = (osstring_to_bytes_windows r2 w).1
    ∧ (osstring_to_str_unix rtGood []).1 ≠ (osstring_to_str_unix rtBad []).1 := by
  refine ⟨?_, ?_, ?_⟩
  · simp [osstring_to_bytes_unix, pyBytesFromStringAndSize, pyObjectFromOwnedPtr]
  · simp [osstring_to_bytes_windows, pyBytesFromStringAndSize, pyObjectFromOwnedPtr]
  · simp [osstring_to_str_unix, cStringNew, pyUnicodeDecodeLocaleAndSize,
          pyObjectFromOwnedPtr, rtGood, rtBad, decodeLocaleSE]

/-- C10 witness: concrete inputs for the determinism statement. -/
theorem osstring_to_bytes_deterministic_witness :
    (osstring_to_bytes_unix rtGood [255]).1 = (osstring_to_bytes_unix rtBad [255]).1
    ∧ (osstring_to_bytes_windows rtGood [233]).1
        = (osstring_to_bytes_windows rtBad [233]).1
    ∧ (osstring_to_str_unix rtGood []).1 ≠ (osstring_to_str_unix rtBad []).1 :=
  osstring_to_bytes_deterministic rtGood rtBad [255] [233]

/-- C3: an input with an embedded NUL byte makes handle construction and the
POSIX-style text conversion fail with `invalidHostString`, with the runtime
state returned untouched — no foreign call, no allocation happened — while
the bytes conversions and the Windows-style text conversion still succeed on
the very same input: the failure applies only to those two paths. -/
theorem embedded_nul_fails_fast (rt : Runtime) (b : List Nat)
    (h : b.contains 0 = true) :
    OwnedPyStr.fromStr rt b = (Except.error PyStrError.invalidHostString, rt)
    ∧ osstring_to_str_unix rt b = (Except.error PyStrError.invalidHostString, rt)
    ∧ (osstring_to_bytes_unix rt b).1 = PyObject.bytes b
    ∧ (osstring_to_bytes_windows rt b).1 = PyObject.bytes (wideToBytes b)
    ∧ (osstring_to_str_windows rt b).1 = PyObject.text b := by
  have h' : 0 ∈ b := by simpa using h
  have hlen := wideToBytes_length b
  refine ⟨?_, ?_, ?_, ?_, ?_⟩ <;>
    simp [OwnedPyStr.fromStr, osstring_to_str_unix, osstring_to_bytes_unix,
          osstring_to_bytes_windows, osstring_to_str_windows, cStringNew, h',
          pyBytesFromStringAndSize, pyUnicodeFromWideChar, pyObjectFromOwnedPtr]
  omega

/-- C3 witness: the concrete input 104, 0, 105 with an embedded NUL. -/
theorem embedded_nul_fails_fast_witness :
    OwnedPyStr.fromStr rtGood [104, 0, 105]
        = (Except.error PyStrError.invalidHostString, rtGood)
    ∧ osstring_to_str_unix rtGood [104, 0, 105]
        = (Except.error PyStrError.invalidHostString, rtGood)
    ∧ (osstring_to_bytes_unix rtGood [104, 0, 105]).1
        = PyObject.bytes [104, 0, 105]
    ∧ (osstring_to_bytes_windows rtGood [104, 0, 105]).1
        = PyObject.bytes (wideToBytes [104, 0, 105])
    ∧ (osstring_to_str_windows rtGood [104, 0, 105]).1
        = PyObject.text [104, 0, 105] :=
  embedded_nul_fails_fast rtGood [104, 0, 105] (by decide)

/-- C5: a successfully constructed handle holds a non-null pointer to a buffer
just allocated by the runtime's locale decode (it is in the runtime's live
set), `as_wchar_ptr` exposes exactly that pointer, and success implies the
locale-decode subsystem was functional — when it is not, construction fails
fatally instead of producing a handle. -/
theorem handle_pointer_nonnull_invariant (rt : Runtime) (s : List Nat)
    (h : OwnedPyStr) (heq : (OwnedPyStr.fromStr rt s).1 = Except.ok h) :
    h.as_wchar_ptr ≠ 0
    ∧ h.as_wchar_ptr ∈ (OwnedPyStr.fromStr rt s).2.live
    ∧ rt.decodeOk = true := by
  by_cases h0 : (0 : Nat) ∈ s
  · rw [fromStr_of_nul rt s h0] at heq
    exact absurd heq (by simp)
  · cases hok : rt.decodeOk with
    | false =>
      rw [fromStr_of_decode_failure rt s h0 hok] at heq
      exact absurd heq (by simp)
    | true =>
      rw [fromStr_of_ok rt s h0 hok] at heq ⊢
      simp only [Except.ok.injEq] at heq
      subst heq
      exact ⟨Nat.succ_ne_zero _, List.mem_cons_self _ _, rfl⟩

/-- C5 witness: a concrete successful construction on the functional
runtime. -/
theorem handle_pointer_nonnull_invariant_witness :
    OwnedPyStr.as_wchar_ptr ⟨1⟩ ≠ 0
    ∧ OwnedPyStr.as_wchar_ptr ⟨1⟩ ∈ (OwnedPyStr.fromStr rtGood [97]).2.live
    ∧ rtGood.decodeOk = true :=
  handle_pointer_nonnull_invariant rtGood [97] ⟨1⟩ (by rfl)

/-- C7, evidence against the claim as stated: when the runtime's decode
primitive returns null, handle construction does halt (`runtimeDecodeFailure`,
the `panic!`), but the POSIX-style `osstring_to_str` does not — it has no
null check, passes the null result straight to `PyObject::from_owned_ptr`,
and returns a null-wrapping object to its caller. -/
theorem osstring_to_str_unix_decode_failure_not_halted :
    (osstring_to_str_unix rtBad [97]).1 = Except.ok PyObject.null
    ∧ (OwnedPyStr.fromStr rtBad [97]).1
        = Except.error PyStrError.runtimeDecodeFailure := by
  constructor <;> rfl

/-- C4: constructing and destroying `n` handles in sequence performs exactly
`n` raw allocations and `n` matching calls of the runtime's dedicated
deallocator (`PyMem_RawFree` appears exactly `n` more times in the trace,
matching the `n` `Py_DecodeLocale` calls), the runtime's live-buffer set is
restored — no leak, no double free — and the handle lifecycle admits no
transition out of the Freed state. -/
theorem handle_lifecycle_alloc_free_balanced (rt : Runtime) (s : List Nat)
    (n : Nat) (hok : rt.decodeOk = true) (h0 : s.contains 0 = false) :
    (constructDestroyN s n rt).allocCount = rt.allocCount + n
    ∧ (constructDestroyN s n rt).freeCount = rt.freeCount + n
    ∧ (constructDestroyN s n rt).live = rt.live
    ∧ (constructDestroyN s n rt).trace.count FFICall.rawFree
        = rt.trace.count FFICall.rawFree + n
    ∧ (constructDestroyN s n rt).trace.count FFICall.decodeLocale
        = rt.trace.count FFICall.decodeLocale + n
    ∧ ¬ handleStep HandleState.freed HandleState.alive
    ∧ ¬ handleStep HandleState.freed HandleState.freed := by
  have h := constructDestroyN_state s h0 n rt hok
  refine ⟨h.1, h.2.1, h.2.2.1, h.2.2.2.1, h.2.2.2.2,
          fun hc => ?_, fun hc => ?_⟩ <;> cases hc

/-- C4 witness: three construct-and-destroy cycles on the functional
runtime. -/
theorem handle_lifecycle_alloc_free_balanced_witness :
    (constructDestroyN [104, 105] 3 rtGood).allocCount = rtGood.allocCount + 3
    ∧ (constructDestroyN [104, 105] 3 rtGood).freeCount = rtGood.freeCount + 3
    ∧ (constructDestroyN [104, 105] 3 rtGood).live = rtGood.live
    ∧ (constructDestroyN [104, 105] 3 rtGood).trace.count FFICall.rawFree
        = rtGood.trace.count FFICall.rawFree + 3
    ∧ (constructDestroyN [104, 105] 3 rtGood).trace.count FFICall.decodeLocale
        = rtGood.trace.count FFICall.decodeLocale + 3
    ∧ ¬ handleStep HandleState.freed HandleState.alive
    ∧ ¬ handleStep HandleState.freed HandleState.freed :=
  handle_lifecycle_alloc_free_balanced rtGood [104, 105] 3 (by decide) (by decide)

end PyStr
